import Mathlib

/-!
Shallow embedding of the ARTEMIS intelligence dashboard (a React/TypeScript
application).  Pure computations of the source are translated into Lean
functions; the outcomes of the non-deterministic external calls (the hosted
generative-model API, the Supabase insert, the browser confirm dialog) are
passed in explicitly as oracle arguments.  Stored JSON is modelled at the
parsed-value level (`Json` below): `JSON.stringify` / `JSON.parse` are inverse
bijections between JSON values and their textual serializations, so equality
of stored strings corresponds to equality of `Json` values.
-/

namespace Artemis

/-- Sentiment labels produced by the analysis model (types.ts `SentimentLabel`). -/
inductive SentimentLabel where
  | VeryNegative
  | Negative
  | Neutral
  | Positive
  | VeryPositive
deriving DecidableEq, Repr

/-- Risk categories produced by the analysis model (types.ts `RiskCategory`). -/
inductive RiskCategory where
  | None
  | ReligiousDesecration
  | IdeologicalSubversion
  | HateSpeech
  | PublicIncitement
  | Misinformation
deriving DecidableEq, Repr

/-- The string form of a risk category, as it appears in the TypeScript union. -/
def RiskCategory.toText : RiskCategory → String
  | .None => "None"
  | .ReligiousDesecration => "Religious Desecration"
  | .IdeologicalSubversion => "Ideological Subversion"
  | .HateSpeech => "Hate Speech"
  | .PublicIncitement => "Public Incitement"
  | .Misinformation => "Misinformation"

/-- Partial inverse of `RiskCategory.toText`. -/
def RiskCategory.ofText : String → Option RiskCategory
  | "None" => some .None
  | "Religious Desecration" => some .ReligiousDesecration
  | "Ideological Subversion" => some .IdeologicalSubversion
  | "Hate Speech" => some .HateSpeech
  | "Public Incitement" => some .PublicIncitement
  | "Misinformation" => some .Misinformation
  | _ => none

/-- Delivery status of a logged alert (types.ts `AlertEntry.status`). -/
inductive AlertStatus where
  | Sent
  | Failed
deriving DecidableEq, Repr

/-- The string form of an alert status. -/
def AlertStatus.toText : AlertStatus → String
  | .Sent => "Sent"
  | .Failed => "Failed"

/-- Partial inverse of `AlertStatus.toText`. -/
def AlertStatus.ofText : String → Option AlertStatus
  | "Sent" => some .Sent
  | "Failed" => some .Failed
  | _ => none

/-- Platforms of a monitored data source (types.ts `DataSource.platform`). -/
inductive Platform where
  | RSS
  | Facebook
  | XTwitter
  | Instagram
  | TikTok
  | NewsPaper
  | Magazine
deriving DecidableEq, Repr

/-- The string form of a platform, as it appears in the TypeScript union. -/
def Platform.toText : Platform → String
  | .RSS => "RSS"
  | .Facebook => "Facebook"
  | .XTwitter => "X (Twitter)"
  | .Instagram => "Instagram"
  | .TikTok => "TikTok"
  | .NewsPaper => "News Paper"
  | .Magazine => "Magazine"

/-- Partial inverse of `Platform.toText`. -/
def Platform.ofText : String → Option Platform
  | "RSS" => some .RSS
  | "Facebook" => some .Facebook
  | "X (Twitter)" => some .XTwitter
  | "Instagram" => some .Instagram
  | "TikTok" => some .TikTok
  | "News Paper" => some .NewsPaper
  | "Magazine" => some .Magazine
  | _ => none

/-- Health status of a monitored data source (types.ts `DataSource.status`). -/
inductive SourceStatus where
  | active
  | error
  | inactive
deriving DecidableEq, Repr

/-- The string form of a source status. -/
def SourceStatus.toText : SourceStatus → String
  | .active => "active"
  | .error => "error"
  | .inactive => "inactive"

/-- Partial inverse of `SourceStatus.toText`. -/
def SourceStatus.ofText : String → Option SourceStatus
  | "active" => some .active
  | "error" => some .error
  | "inactive" => some .inactive
  | _ => none

/-- A social reference extracted by the model (types.ts `Reference`). -/
structure Reference where
  type : String
  name : String
  url : String
deriving DecidableEq, Repr

/-- Structured result of analyzing one article/post (types.ts `ArticleAnalysis`).
JavaScript numbers are modelled as rationals. -/
structure ArticleAnalysis where
  article_id : String
  source : String
  url : Option String
  date : String
  summary : String
  primary_topic : String
  sentiment_score : Rat
  sentiment_label : SentimentLabel
  risk_category : RiskCategory
  key_entities : List String
  references : List Reference
  alert_summary : Option String
  ip_address : Option String
  original_post_content : Option String
deriving DecidableEq, Repr

/-- A raw scraped post handed to the analyzer (types.ts `AnalysisRequest`). -/
structure AnalysisRequest where
  text : String
  source : String
  url : Option String
  date : String
  ip_address : Option String
deriving DecidableEq, Repr

/-- A monitored data source (types.ts `DataSource`). -/
structure DataSource where
  id : String
  name : String
  platform : Platform
  url : String
  status : SourceStatus
  lastScraped : String
deriving DecidableEq, Repr

/-- A logged automated alert (types.ts `AlertEntry`). -/
structure AlertEntry where
  id : String
  timestamp : String
  recipient : String
  subject : String
  body : String
  riskLevel : RiskCategory
  source : String
  status : AlertStatus
deriving DecidableEq, Repr

/-- An uploaded documentation file (types.ts `DocumentationFile`). -/
structure DocumentationFile where
  id : String
  name : String
  size : String
  uploadDate : String
  url : String
deriving DecidableEq, Repr

/-- User-configurable application settings (types.ts `AppSettings`). -/
structure AppSettings where
  email : String
  emailEnabled : Bool
  sensitivity : String
deriving DecidableEq, Repr

/-- Parsed JSON values.  Numbers are modelled as rationals (NaN and infinities
cannot appear in JSON text). -/
inductive Json where
  | null
  | bool (b : Bool)
  | num (q : Rat)
  | str (s : String)
  | arr (elems : List Json)
  | obj (fields : List (String × Json))

/-- Extract the string of a JSON string value. -/
def Json.getStr? : Json → Option String
  | .str s => some s
  | _ => none

/-- Extract the boolean of a JSON boolean value. -/
def Json.getBool? : Json → Option Bool
  | .bool b => some b
  | _ => none

/-- JavaScript truthiness of a JSON value. -/
def Json.truthy : Json → Bool
  | .null => false
  | .bool b => b
  | .num q => decide (q ≠ 0)
  | .str s => decide (s ≠ "")
  | .arr _ => true
  | .obj _ => true

/-- Whether a JSON value is an object carrying the given field (property access
on a non-object yields `undefined` in JavaScript). -/
def Json.hasField (j : Json) (k : String) : Bool :=
  match j with
  | .obj fs => (fs.lookup k).isSome
  | _ => false

/-- Look up a field of a JSON object; `none` for a missing field or a
non-object. -/
def Json.getField? (j : Json) (k : String) : Option Json :=
  match j with
  | .obj fs => fs.lookup k
  | _ => none

/-- Decode every element of a JSON array with the given element decoder. -/
def decodeJList {α : Type} (g : Json → Option α) : List Json → Option (List α)
  | [] => some []
  | j :: js => do
      let a ← g j
      let as ← decodeJList g js
      some (a :: as)

/-! ## Gemini service layer (services/geminiService.ts)

Each service function performs a model call whose outcome is
non-deterministic; the outcome is passed in as an explicit oracle argument.
`none` stands for any failure of that call: a thrown API error, a missing
`response.text`, or unparsable JSON — all of which take the same `catch`
branch in the source. -/

/-- Whether the sentiment label is `Negative` or `Very Negative`
(the `['Negative', 'Very Negative'].includes(...)` tests in the source). -/
def isNegativeSentiment (a : ArticleAnalysis) : Bool :=
  a.sentiment_label = SentimentLabel.Negative || a.sentiment_label = SentimentLabel.VeryNegative

/-- Whether the risk category is set.  The source additionally tests
`!== undefined`, which is vacuous for the typed field. -/
def isHighRisk (a : ArticleAnalysis) : Bool :=
  a.risk_category ≠ RiskCategory.None

/-- Model of `generateAlertEmail`.  The oracle is the parsed
`subject`/`body` pair returned by the model, or `none` on any API failure,
in which case the static fallback is returned.  The function never throws:
its whole body is wrapped in `try`/`catch` and the `catch` returns the
fallback. -/
def generateAlertEmail (oracle : Option (String × String))
    (article : ArticleAnalysis) (recipientEmail : String) : String × String :=
  match oracle with
  | some sb => sb
  | none =>
      ("Automated Alert: " ++ article.risk_category.toText,
       "High risk detected in " ++ article.source ++ ". Please review dashboard.")

/-- Model of `generateScanReport`.  An empty article list short-circuits
before any API call.  Otherwise the result is `response.text || fallback`:
the model text if non-empty, the fixed fallback string when the text is
missing/empty (`some ""`) or the call throws (`none`). -/
def generateScanReport (oracle : Option String)
    (articles : List ArticleAnalysis) : String :=
  if articles.isEmpty then "No articles were processed."
  else
    match oracle with
    | some t => if t = "" then "Scan complete. Review detailed results below." else t
    | none => "Scan complete. Review detailed results below."

/-- First static fallback post of `generateSocialScrapeBatch`.  `nowMs`
stands for the `Date.now()` timestamp interpolated into the permalink and
`today` for `new Date().toISOString().split('T')[0]`. -/
def fallbackPost1 (platform nowMs today : String) : AnalysisRequest :=
  { text := "RT @radical_voice: The recent policies are a direct attack on our traditional values. We must rise up and show them who really owns the streets! #resistance #uprising"
    source := if platform = "Mixed Sources" then "X (Twitter)" else platform
    url := some ("https://twitter.com/radical_voice/status/" ++ nowMs)
    date := today
    ip_address := some "45.12.33.192" }

/-- Second static fallback post of `generateSocialScrapeBatch`. -/
def fallbackPost2 (platform nowMs today : String) : AnalysisRequest :=
  { text := "Unbelievable scenes at the city square today. A group was seen publicly desecrating the holy book. This is unacceptable! Video evidence attached."
    source := if platform = "Mixed Sources" then "Facebook" else platform
    url := some ("https://facebook.com/groups/community/posts/" ++ nowMs)
    date := today
    ip_address := some "192.168.0.45" }

/-- Third static fallback post of `generateSocialScrapeBatch`. -/
def fallbackPost3 (nowMs today : String) : AnalysisRequest :=
  { text := "New tech regulations expected to pass this week. Market analysts predict a slight dip in semiconductor stocks but long term growth remains strong."
    source := "Bloomberg"
    url := some ("https://bloomberg.com/news/articles/" ++ nowMs)
    date := today
    ip_address := some "10.0.5.12" }

/-- The static three-post fallback list of `generateSocialScrapeBatch`. -/
def fallbackData (platform nowMs today : String) : List AnalysisRequest :=
  [fallbackPost1 platform nowMs today, fallbackPost2 platform nowMs today,
   fallbackPost3 nowMs today]

/-- Model of `generateSocialScrapeBatch`.  The oracle is the parsed array of
posts from the model; on any failure (`none`) the `catch` branch returns
`fallbackData.slice(0, count)`. -/
def generateSocialScrapeBatch (oracle : Option (List AnalysisRequest))
    (count : Nat) (platform nowMs today : String) : List AnalysisRequest :=
  match oracle with
  | some posts => posts
  | none => (fallbackData platform nowMs today).take count

/-- Model of `generateMockArticle`: `generateSocialScrapeBatch(1, platform)`
followed by `res[0]` (which is `undefined`, i.e. `none`, on an empty array). -/
def generateMockArticle (oracle : Option (List AnalysisRequest))
    (platform nowMs today : String) : Option AnalysisRequest :=
  (generateSocialScrapeBatch oracle 1 platform nowMs today).head?

/-- Oracle for one `analyzeArticle` call: the parsed model response (`none`
on API failure / missing text / unparsable JSON), the outcome of the
background Supabase insert, and the alert-summary model response. -/
structure AnalyzeOracle where
  modelResponse : Option ArticleAnalysis
  dbInsertOk : Bool
  alertResponse : Option String
deriving Repr

/-- Metadata attached by `analyzeArticle` after parsing the model response:
`data.ip_address = request.ip_address || "Unknown"`,
`data.url = request.url || ""`,
`data.original_post_content = request.text`. -/
def attachMetadata (req : AnalysisRequest) (d : ArticleAnalysis) : ArticleAnalysis :=
  { d with
    ip_address := some (match req.ip_address with
      | some s => if s = "" then "Unknown" else s
      | none => "Unknown")
    url := some (match req.url with
      | some s => s
      | none => "")
    original_post_content := some req.text }

/-- Console message produced by the fire-and-forget Supabase insert. -/
def supabaseLog (ok : Bool) (articleId : String) : String :=
  if ok then "Analysis saved to Supabase: " ++ articleId
  else "Supabase background save failed (check table existence):"

/-- Model of `analyzeArticle`.  Returns the value delivered to the caller
(`Except` models the rethrown error of the outer `catch`) together with the
list of console messages.  The Supabase insert runs in a detached async
block with its own `try`/`catch`: its outcome is only logged.  The
alert-summary call sets `alert_summary` when it yields non-empty text. -/
def analyzeArticle (req : AnalysisRequest) (o : AnalyzeOracle) :
    Except String ArticleAnalysis × List String :=
  match o.modelResponse with
  | none => (Except.error "Gemini Analysis Failed", ["Gemini Analysis Failed:"])
  | some parsed =>
      let data := attachMetadata req parsed
      let dbLog := supabaseLog o.dbInsertOk data.article_id
      let withAlert :=
        if isNegativeSentiment data || isHighRisk data then
          match o.alertResponse with
          | some t =>
              if t = "" then data else { data with alert_summary := some t.trim }
          | none => data
        else data
      (Except.ok withAlert, [dbLog])

/-! ## Network scan (components/DataSourcesView.tsx `handleScan`)

The scan scrapes a batch of raw posts, analyzes each, and for every risky
post with email alerts enabled logs an alert entry via `onAddAlert`.  A
`ScanStep` bundles the per-post oracle data: the analysis that
`analyzeArticle` returned for the post, the `generateAlertEmail` oracle, and
the `Date.now()`/`toISOString()` values used for the alert id and timestamp.
An `analyzeArticle` failure aborts the whole scan through the outer `catch`,
so the list of steps models the successfully analyzed posts. -/

structure ScanStep where
  analysis : ArticleAnalysis
  emailOracle : Option (String × String)
  alertId : String
  alertTimestamp : String

/-- The alert entry logged by `handleScan` for one risky post: recipient is
the configured settings email, subject/body come from `generateAlertEmail`,
and the status is the literal `'Sent'`. -/
def alertForStep (settings : AppSettings) (st : ScanStep) : AlertEntry :=
  let ec := generateAlertEmail st.emailOracle st.analysis settings.email
  { id := st.alertId
    timestamp := st.alertTimestamp
    recipient := settings.email
    subject := ec.1
    body := ec.2
    riskLevel := st.analysis.risk_category
    source := st.analysis.source
    status := AlertStatus.Sent }

/-- Alert entries recorded for one analyzed post: one entry when the post is
high-risk or carries negative sentiment and email alerts are enabled,
otherwise nothing.  (`generateAlertEmail` never throws, so the inner `catch`
around the alert logging is unreachable.) -/
def scanStepAlerts (settings : AppSettings) (st : ScanStep) : List AlertEntry :=
  if (isHighRisk st.analysis || isNegativeSentiment st.analysis) && settings.emailEnabled then
    [alertForStep settings st]
  else []

/-- Observable outcome of `handleScan`: the analyzed articles pushed to the
app state, the alert entries logged in order, the alert counter shown in the
completion toast, and the executive-summary report. -/
structure ScanOutcome where
  analyzed : List ArticleAnalysis
  alertsAdded : List AlertEntry
  alertCount : Nat
  report : String
deriving DecidableEq, Repr

/-- Model of `handleScan` over the per-post analysis outcomes and the
scan-report oracle. -/
def handleScan (settings : AppSettings) (steps : List ScanStep)
    (reportOracle : Option String) : ScanOutcome :=
  { analyzed := steps.map (·.analysis)
    alertsAdded := steps.flatMap (scanStepAlerts settings)
    alertCount := steps.countP
      (fun st => isHighRisk st.analysis || isNegativeSentiment st.analysis)
    report := generateScanReport reportOracle (steps.map (·.analysis)) }

/-! ## Admin gate (components/AlertsView.tsx `handleLogin`)

The same handler appears verbatim in UsageGuideView. -/

/-- Local UI state of the alerts admin gate. -/
structure AlertsAdminState where
  isAdmin : Bool
  showAuthScreen : Bool
  password : String
  authError : String
deriving DecidableEq, Repr

/-- Model of `handleLogin`: the demo credential check against the hardcoded
string. -/
def handleLogin (s : AlertsAdminState) : AlertsAdminState :=
  if s.password = "admin009" then
    { s with isAdmin := true, showAuthScreen := false, authError := "" }
  else
    { s with authError := "Access Denied: Invalid Security Credentials", password := "" }

/-! ## Dashboard statistics (components/DashboardStats.tsx)

The sentiment histogram is a pure function of the stored articles: the
`forEach` over the five bins counts, for each label, the articles carrying
it. -/

/-- The five sentiment bin counts (V. Neg, Neg, Neu, Pos, V. Pos). -/
def dashboardSentimentBins (articles : List ArticleAnalysis) : List Nat :=
  [articles.countP (fun a => a.sentiment_label = SentimentLabel.VeryNegative),
   articles.countP (fun a => a.sentiment_label = SentimentLabel.Negative),
   articles.countP (fun a => a.sentiment_label = SentimentLabel.Neutral),
   articles.countP (fun a => a.sentiment_label = SentimentLabel.Positive),
   articles.countP (fun a => a.sentiment_label = SentimentLabel.VeryPositive)]

/-! ## JSON serialization of the persisted records

`JSON.stringify` emits object fields in insertion order; the encoders below
build the corresponding JSON values.  The decoders express what
`JSON.parse` recovers from storage that this app wrote (the source casts
the parsed value without validation, so only well-formed storage is
modelled in the typed reading). -/

/-- JSON encoding of `AppSettings`. -/
def encodeSettings (s : AppSettings) : Json :=
  Json.obj [("email", Json.str s.email), ("emailEnabled", Json.bool s.emailEnabled),
            ("sensitivity", Json.str s.sensitivity)]

/-- Typed reading of stored `AppSettings`. -/
def decodeSettings (j : Json) : Option AppSettings :=
  match j with
  | .obj fs => do
      let e ← (← fs.lookup "email").getStr?
      let en ← (← fs.lookup "emailEnabled").getBool?
      let sv ← (← fs.lookup "sensitivity").getStr?
      some ⟨e, en, sv⟩
  | _ => none

/-- JSON encoding of one `AlertEntry`. -/
def encodeAlertEntry (a : AlertEntry) : Json :=
  Json.obj [("id", Json.str a.id), ("timestamp", Json.str a.timestamp),
            ("recipient", Json.str a.recipient), ("subject", Json.str a.subject),
            ("body", Json.str a.body), ("riskLevel", Json.str a.riskLevel.toText),
            ("source", Json.str a.source), ("status", Json.str a.status.toText)]

/-- Typed reading of one stored `AlertEntry`. -/
def decodeAlertEntry (j : Json) : Option AlertEntry :=
  match j with
  | .obj fs => do
      let i ← (← fs.lookup "id").getStr?
      let ts ← (← fs.lookup "timestamp").getStr?
      let rc ← (← fs.lookup "recipient").getStr?
      let su ← (← fs.lookup "subject").getStr?
      let bo ← (← fs.lookup "body").getStr?
      let rl ← RiskCategory.ofText (← (← fs.lookup "riskLevel").getStr?)
      let so ← (← fs.lookup "source").getStr?
      let stt ← AlertStatus.ofText (← (← fs.lookup "status").getStr?)
      some ⟨i, ts, rc, su, bo, rl, so, stt⟩
  | _ => none

/-- JSON encoding of the alert log. -/
def encodeAlerts (l : List AlertEntry) : Json :=
  Json.arr (l.map encodeAlertEntry)

/-- Typed reading of the stored alert log. -/
def decodeAlerts (j : Json) : Option (List AlertEntry) :=
  match j with
  | .arr js => decodeJList decodeAlertEntry js
  | _ => none

/-- JSON encoding of one `DataSource`. -/
def encodeDataSource (s : DataSource) : Json :=
  Json.obj [("id", Json.str s.id), ("name", Json.str s.name),
            ("platform", Json.str s.platform.toText), ("url", Json.str s.url),
            ("status", Json.str s.status.toText), ("lastScraped", Json.str s.lastScraped)]

/-- Typed reading of one stored `DataSource`. -/
def decodeDataSource (j : Json) : Option DataSource :=
  match j with
  | .obj fs => do
      let i ← (← fs.lookup "id").getStr?
      let n ← (← fs.lookup "name").getStr?
      let p ← Platform.ofText (← (← fs.lookup "platform").getStr?)
      let u ← (← fs.lookup "url").getStr?
      let stt ← SourceStatus.ofText (← (← fs.lookup "status").getStr?)
      let ls ← (← fs.lookup "lastScraped").getStr?
      some ⟨i, n, p, u, stt, ls⟩
  | _ => none

/-- JSON encoding of the data-source list. -/
def encodeDataSources (l : List DataSource) : Json :=
  Json.arr (l.map encodeDataSource)

/-- Typed reading of the stored data-source list. -/
def decodeDataSources (j : Json) : Option (List DataSource) :=
  match j with
  | .arr js => decodeJList decodeDataSource js
  | _ => none

/-- JSON encoding of one `DocumentationFile`. -/
def encodeDoc (d : DocumentationFile) : Json :=
  Json.obj [("id", Json.str d.id), ("name", Json.str d.name),
            ("size", Json.str d.size), ("uploadDate", Json.str d.uploadDate),
            ("url", Json.str d.url)]

/-- Typed reading of one stored `DocumentationFile`. -/
def decodeDoc (j : Json) : Option DocumentationFile :=
  match j with
  | .obj fs => do
      let i ← (← fs.lookup "id").getStr?
      let n ← (← fs.lookup "name").getStr?
      let sz ← (← fs.lookup "size").getStr?
      let up ← (← fs.lookup "uploadDate").getStr?
      let u ← (← fs.lookup "url").getStr?
      some ⟨i, n, sz, up, u⟩
  | _ => none

/-- JSON encoding of the documentation list. -/
def encodeDocs (l : List DocumentationFile) : Json :=
  Json.arr (l.map encodeDoc)

/-- Typed reading of the stored documentation list. -/
def decodeDocs (j : Json) : Option (List DocumentationFile) :=
  match j with
  | .arr js => decodeJList decodeDoc js
  | _ => none

/-! ## App-level state and localStorage persistence (App.tsx)

The four persisted state values each have a `useState` initializer reading
their localStorage key and a `useEffect` writing the key whenever the value
changes.  `LocalStorage` holds the four keys; a field named after its key
holds the parsed JSON value stored under it (`none` = key absent). -/

/-- The top-level React state of `App` (the `articles` list is loaded from
Supabase and is not persisted to localStorage). -/
structure AppState where
  articles : List ArticleAnalysis
  settings : AppSettings
  alerts : List AlertEntry
  dataSources : List DataSource
  docs : List DocumentationFile
deriving DecidableEq, Repr

/-- The four ARTEMIS localStorage keys. -/
structure LocalStorage where
  artemis_settings : Option Json
  artemis_alerts : Option Json
  artemis_dataSources : Option Json
  artemis_docs : Option Json

/-- Built-in default settings (the `useState` fallback literal). -/
def defaultSettings : AppSettings :=
  { email := "analyst@company.com", emailEnabled := true, sensitivity := "medium" }

/-- Built-in `INITIAL_SOURCES` fallback for the data-source list. -/
def INITIAL_SOURCES : List DataSource :=
  [{ id := "1", name := "Public News RSS", platform := Platform.RSS,
     url := "https://news.google.com/rss", status := SourceStatus.active,
     lastScraped := "10 mins ago" },
   { id := "2", name := "The Daily Times", platform := Platform.NewsPaper,
     url := "https://dailytimes.example.com", status := SourceStatus.active,
     lastScraped := "5 mins ago" },
   { id := "3", name := "Tech Weekly", platform := Platform.Magazine,
     url := "https://techweekly.example.com", status := SourceStatus.active,
     lastScraped := "1 hour ago" },
   { id := "4", name := "Monitoring Page: Religious Debates", platform := Platform.Facebook,
     url := "https://facebook.com/groups/debates", status := SourceStatus.active,
     lastScraped := "1 hour ago" },
   { id := "5", name := "Hashtag: #PublicOpinion", platform := Platform.XTwitter,
     url := "https://x.com/search?q=public", status := SourceStatus.active,
     lastScraped := "25 mins ago" }]

/-- Startup initializer for `settings`: parse the stored value, default when
the key is absent. -/
def initSettings (st : LocalStorage) : Option AppSettings :=
  match st.artemis_settings with
  | none => some defaultSettings
  | some j => decodeSettings j

/-- Startup initializer for `alerts`. -/
def initAlerts (st : LocalStorage) : Option (List AlertEntry) :=
  match st.artemis_alerts with
  | none => some []
  | some j => decodeAlerts j

/-- Startup initializer for `dataSources`. -/
def initDataSources (st : LocalStorage) : Option (List DataSource) :=
  match st.artemis_dataSources with
  | none => some INITIAL_SOURCES
  | some j => decodeDataSources j

/-- Startup initializer for `docs`. -/
def initDocs (st : LocalStorage) : Option (List DocumentationFile) :=
  match st.artemis_docs with
  | none => some []
  | some j => decodeDocs j

/-- The state-updating events handled by `App`. -/
inductive AppUpdate where
  | analysisComplete (r : ArticleAnalysis)
  | batchAnalysisComplete (rs : List ArticleAnalysis)
  | clearData
  | addAlert (a : AlertEntry)
  | deleteAlert (id : String)
  | addSource (s : DataSource)
  | deleteSource (id : String)
  | uploadDoc (d : DocumentationFile)
  | deleteDoc (id : String)
  | updateSettings (s : AppSettings)
  | importData (data : List ArticleAnalysis) (replace : Bool)

/-- State transition of each `App` handler. -/
def applyUpdate : AppUpdate → AppState → AppState
  | .analysisComplete r, s => { s with articles := r :: s.articles }
  | .batchAnalysisComplete rs, s => { s with articles := rs ++ s.articles }
  | .clearData, s => { s with articles := [], alerts := [] }
  | .addAlert a, s => { s with alerts := a :: s.alerts }
  | .deleteAlert i, s => { s with alerts := s.alerts.filter (fun a => a.id ≠ i) }
  | .addSource src, s => { s with dataSources := s.dataSources ++ [src] }
  | .deleteSource i, s => { s with dataSources := s.dataSources.filter (fun x => x.id ≠ i) }
  | .uploadDoc d, s => { s with docs := d :: s.docs }
  | .deleteDoc i, s => { s with docs := s.docs.filter (fun d => d.id ≠ i) }
  | .updateSettings ns, s => { s with settings := ns }
  | .importData data replace, s =>
      if replace then { s with articles := data }
      else { s with articles := data ++ s.articles }

/-- The persistence `useEffect` that reruns after an update: the effect of
the state value the update touched writes its key (setState always produces
a fresh object, so the dependency comparison fires); the other keys are
untouched.  The `articles` list has no persistence effect. -/
def persistUpdate (u : AppUpdate) (s : AppState) (st : LocalStorage) : LocalStorage :=
  match u with
  | .updateSettings _ => { st with artemis_settings := some (encodeSettings s.settings) }
  | .clearData => { st with artemis_alerts := some (encodeAlerts s.alerts) }
  | .addAlert _ => { st with artemis_alerts := some (encodeAlerts s.alerts) }
  | .deleteAlert _ => { st with artemis_alerts := some (encodeAlerts s.alerts) }
  | .addSource _ => { st with artemis_dataSources := some (encodeDataSources s.dataSources) }
  | .deleteSource _ => { st with artemis_dataSources := some (encodeDataSources s.dataSources) }
  | .uploadDoc _ => { st with artemis_docs := some (encodeDocs s.docs) }
  | .deleteDoc _ => { st with artemis_docs := some (encodeDocs s.docs) }
  | .analysisComplete _ => st
  | .batchAnalysisComplete _ => st
  | .importData _ _ => st

/-- One update followed by its persistence effect. -/
def step (u : AppUpdate) (p : AppState × LocalStorage) : AppState × LocalStorage :=
  let s := applyUpdate u p.1
  (s, persistUpdate u s p.2)

/-- A sequence of updates, each followed by its persistence effect. -/
def runUpdates (us : List AppUpdate) (p : AppState × LocalStorage) :
    AppState × LocalStorage :=
  us.foldl (fun q u => step u q) p

/-- All four persistence effects, as they run on mount. -/
def persistAll (s : AppState) (st : LocalStorage) : LocalStorage :=
  { st with
    artemis_settings := some (encodeSettings s.settings)
    artemis_alerts := some (encodeAlerts s.alerts)
    artemis_dataSources := some (encodeDataSources s.dataSources)
    artemis_docs := some (encodeDocs s.docs) }

/-- Each persisted key holds exactly the serialization of the corresponding
current state value. -/
def storeSynced (s : AppState) (st : LocalStorage) : Prop :=
  st.artemis_settings = some (encodeSettings s.settings) ∧
  st.artemis_alerts = some (encodeAlerts s.alerts) ∧
  st.artemis_dataSources = some (encodeDataSources s.dataSources) ∧
  st.artemis_docs = some (encodeDocs s.docs)

/-! ## JSON import (components/SettingsView.tsx `handleFileChange`)

The file content is parsed with `JSON.parse` (oracle: `none` = the parse
threw) and the parsed value is handed to `onImportData(..., 'merge')` only
when it is an array whose first element (if any) has a truthy `article_id`.
The imported elements are arbitrary parsed JSON — the source casts them
unchecked — so the dashboard article list is represented here at the JSON
level. -/

/-- Notification kinds of the `notify` callback. -/
inductive NotifKind where
  | success
  | error
  | info
deriving DecidableEq, Repr

/-- Outcome of an import attempt: the resulting dashboard articles, the
notification shown, and whether `onImportData` was invoked. -/
structure ImportOutcome where
  articles : List Json
  notifMessage : String
  notifKind : NotifKind
  imported : Bool

/-- Model of `handleFileChange` acting on the current article list.
Accessing `.article_id` on a `null` first element throws a `TypeError`,
which the surrounding `catch` turns into the parse-failure notification. -/
def handleFileChange (content : Option Json) (arts : List Json) : ImportOutcome :=
  match content with
  | none => ⟨arts, "Failed to parse JSON file.", NotifKind.error, false⟩
  | some j =>
      match j with
      | .arr [] =>
          ⟨arts, "Successfully imported 0 articles.", NotifKind.success, true⟩
      | .arr (Json.null :: _) =>
          ⟨arts, "Failed to parse JSON file.", NotifKind.error, false⟩
      | .arr (x :: xs) =>
          if (x.getField? "article_id").elim false Json.truthy then
            ⟨(x :: xs) ++ arts,
             "Successfully imported " ++ toString (x :: xs).length ++ " articles.",
             NotifKind.success, true⟩
          else
            ⟨arts, "File content does not match expected format.", NotifKind.error, false⟩
      | _ => ⟨arts, "Invalid file format. Expected an array of articles.", NotifKind.error, false⟩

/-! ## Clearing history (components/SettingsView.tsx `handleClear` and
App.tsx `handleClearData`) -/

/-- Model of `handleClearData` in `App`: empties both the article list and
the alert log. -/
def handleClearData (s : AppState) : AppState :=
  { s with articles := [], alerts := [] }

/-- Model of `handleClear` in SettingsView.  `confirmed` is the result of
the `window.confirm` dialog (only consulted when there is data to clear).
Returns the new app state and the notifications shown, in order. -/
def handleClear (s : AppState) (confirmed : Bool) : AppState × List String :=
  if s.articles.isEmpty then (s, ["No data to clear."])
  else if confirmed then
    (handleClearData s,
     ["System cache and history cleared",
      "All analysis history has been permanently deleted."])
  else (s, [])

/-! ## Concrete sample values (used by the witness theorems) -/

/-- A sample analysis flagged as risky (negative sentiment and hate speech). -/
def sampleRiskyAnalysis : ArticleAnalysis :=
  { article_id := "a1", source := "Facebook", url := some "https://facebook.com/p/1",
    date := "2026-01-01", summary := "sample summary", primary_topic := "Other",
    sentiment_score := -1/2, sentiment_label := SentimentLabel.Negative,
    risk_category := RiskCategory.HateSpeech, key_entities := [], references := [],
    alert_summary := none, ip_address := some "1.2.3.4",
    original_post_content := some "sample text" }

/-- A sample scan step whose alert-email model call failed. -/
def sampleStep : ScanStep :=
  { analysis := sampleRiskyAnalysis, emailOracle := none,
    alertId := "17000", alertTimestamp := "2026-01-01T00:00:00Z" }

/-- Sample settings with email alerts enabled. -/
def sampleSettings : AppSettings :=
  { email := "analyst@company.com", emailEnabled := true, sensitivity := "medium" }

/-- A sample logged alert. -/
def sampleAlert : AlertEntry :=
  { id := "al1", timestamp := "2026-01-02T03:04:05Z", recipient := "analyst@company.com",
    subject := "sample subject", body := "sample body",
    riskLevel := RiskCategory.HateSpeech, source := "Facebook",
    status := AlertStatus.Sent }

/-- A localStorage snapshot with every key absent. -/
def emptyStore : LocalStorage := ⟨none, none, none, none⟩

/-- The app state right after a first launch. -/
def initialAppState : AppState :=
  { articles := [], settings := defaultSettings, alerts := [],
    dataSources := INITIAL_SOURCES, docs := [] }

/-- A sample app state holding one article and one alert. -/
def sampleLoadedState : AppState :=
  { articles := [sampleRiskyAnalysis], settings := defaultSettings,
    alerts := [sampleAlert], dataSources := INITIAL_SOURCES, docs := [] }

/-! ## Serialization roundtrip lemmas -/

theorem decodeJList_map {α : Type} (g : Json → Option α) (f : α → Json)
    (h : ∀ a, g (f a) = some a) : ∀ l : List α, decodeJList g (l.map f) = some l := by
  intro l
  induction l with
  | nil => rfl
  | cons a t ih => simp [decodeJList, h, ih]

theorem riskCategory_ofText_toText : ∀ c : RiskCategory, RiskCategory.ofText c.toText = some c := by
  intro c
  cases c <;> rfl

theorem alertStatus_ofText_toText : ∀ c : AlertStatus, AlertStatus.ofText c.toText = some c := by
  intro c
  cases c <;> rfl

theorem platform_ofText_toText : ∀ c : Platform, Platform.ofText c.toText = some c := by
  intro c
  cases c <;> rfl

theorem sourceStatus_ofText_toText : ∀ c : SourceStatus, SourceStatus.ofText c.toText = some c := by
  intro c
  cases c <;> rfl

theorem decodeSettings_encodeSettings : ∀ s : AppSettings, decodeSettings (encodeSettings s) = some s := by
  intro s
  cases s
  rfl

theorem decodeAlertEntry_encodeAlertEntry : ∀ a : AlertEntry, decodeAlertEntry (encodeAlertEntry a) = some a := by
  intro a
  cases a with
  | mk i ts rc su bo rl so stt => cases rl <;> cases stt <;> rfl

theorem decodeAlerts_encodeAlerts : ∀ l : List AlertEntry, decodeAlerts (encodeAlerts l) = some l := by
  intro l
  simp [decodeAlerts, encodeAlerts, decodeJList_map _ _ decodeAlertEntry_encodeAlertEntry]

theorem decodeDataSource_encodeDataSource : ∀ s : DataSource, decodeDataSource (encodeDataSource s) = some s := by
  intro s
  cases s with
  | mk i n p u stt ls => cases p <;> cases stt <;> rfl

theorem decodeDataSources_encodeDataSources : ∀ l : List DataSource, decodeDataSources (encodeDataSources l) = some l := by
  intro l
  simp [decodeDataSources, encodeDataSources, decodeJList_map _ _ decodeDataSource_encodeDataSource]

theorem decodeDoc_encodeDoc : ∀ d : DocumentationFile, decodeDoc (encodeDoc d) = some d := by
  intro d
  cases d
  rfl

theorem decodeDocs_encodeDocs : ∀ l : List DocumentationFile, decodeDocs (encodeDocs l) = some l := by
  intro l
  simp [decodeDocs, encodeDocs, decodeJList_map _ _ decodeDoc_encodeDoc]

/-! ## Persistence helper lemma -/

theorem step_preserves_storeSynced (u : AppUpdate) (s : AppState) (st : LocalStorage)
    (h : storeSynced s st) :
    storeSynced (step u (s, st)).1 (step u (s, st)).2 := by
  obtain ⟨h1, h2, h3, h4⟩ := h
  cases u <;>
    simp_all [step, applyUpdate, persistUpdate, storeSynced] <;>
    split <;> simp_all

/-! ## Claim theorems -/

/-- C1: during a network scan (`handleScan`), for every analyzed post an
alert entry is recorded if and only if email alerts are enabled and the
post has sentiment `Negative`/`Very Negative` or a risk category other than
`None`; every recorded alert entry has status `Sent` and recipient equal to
the configured settings email. -/
theorem c1_scan_alert_logging (settings : AppSettings) (steps : List ScanStep)
    (reportOracle : Option String) :
    (∀ st : ScanStep,
       scanStepAlerts settings st ≠ [] ↔
         (settings.emailEnabled = true ∧
          (st.analysis.sentiment_label = SentimentLabel.Negative ∨
           st.analysis.sentiment_label = SentimentLabel.VeryNegative ∨
           st.analysis.risk_category ≠ RiskCategory.None))) ∧
    (∀ e ∈ (handleScan settings steps reportOracle).alertsAdded,
       e.status = AlertStatus.Sent ∧ e.recipient = settings.email) := by
  constructor
  · intro st
    simp only [scanStepAlerts, isHighRisk, isNegativeSentiment]
    by_cases he : settings.emailEnabled <;>
      by_cases hn : st.analysis.sentiment_label = SentimentLabel.Negative <;>
      by_cases hv : st.analysis.sentiment_label = SentimentLabel.VeryNegative <;>
      by_cases hr : st.analysis.risk_category = RiskCategory.None <;>
      simp [he, hn, hv, hr]
  · intro e he
    simp only [handleScan, List.mem_flatMap] at he
    obtain ⟨st, -, hm⟩ := he
    unfold scanStepAlerts at hm
    split at hm
    · simp only [List.mem_singleton] at hm
      subst hm
      exact ⟨rfl, rfl⟩
    · simp at hm

/-- C1 witness: a concrete risky post with alerts enabled does record an
alert, and that alert carries status `Sent`. -/
theorem c1_scan_alert_logging_witness :
    scanStepAlerts sampleSettings sampleStep ≠ [] ∧
    (alertForStep sampleSettings sampleStep).status = AlertStatus.Sent := by
  have h := c1_scan_alert_logging sampleSettings [sampleStep] none
  refine ⟨h.1 sampleStep |>.mpr ⟨rfl, Or.inl rfl⟩, ?_⟩
  exact (h.2 (alertForStep sampleSettings sampleStep) (by decide)).1

/-- C2: submitting the alerts admin login unlocks admin access iff the
entered password is the hardcoded `admin009`; any other password leaves
admin access locked, sets the Access Denied error, and clears the password
field. -/
theorem c2_admin_gate (s : AlertsAdminState) (h : s.isAdmin = false) :
    ((handleLogin s).isAdmin = true ↔ s.password = "admin009") ∧
    (s.password ≠ "admin009" →
       (handleLogin s).isAdmin = false ∧
       (handleLogin s).authError = "Access Denied: Invalid Security Credentials" ∧
       (handleLogin s).password = "") := by
  unfold handleLogin
  by_cases hp : s.password = "admin009" <;> simp [hp, h]

/-- C2 witness: a wrong concrete password stays locked with the error set
and the field cleared; the hardcoded password unlocks. -/
theorem c2_admin_gate_witness :
    ((handleLogin ⟨false, true, "letmein", ""⟩).isAdmin = false ∧
     (handleLogin ⟨false, true, "letmein", ""⟩).authError =
       "Access Denied: Invalid Security Credentials" ∧
     (handleLogin ⟨false, true, "letmein", ""⟩).password = "") ∧
    (handleLogin ⟨false, true, "admin009", ""⟩).isAdmin = true := by
  refine ⟨(c2_admin_gate ⟨false, true, "letmein", ""⟩ rfl).2 (by decide), ?_⟩
  exact (c2_admin_gate ⟨false, true, "admin009", ""⟩ rfl).1.mpr rfl

/-- C3: on any model failure `generateSocialScrapeBatch` returns the static
three-post fallback list truncated to the first `count` items — hence
`min count 3` items — and `generateMockArticle` (which requests count 1)
receives the first fallback post. -/
theorem c3_scrape_fallback (count : Nat) (platform nowMs today : String) :
    generateSocialScrapeBatch none count platform nowMs today =
      (fallbackData platform nowMs today).take count ∧
    (generateSocialScrapeBatch none count platform nowMs today).length = min count 3 ∧
    generateMockArticle none platform nowMs today =
      some (fallbackPost1 platform nowMs today) := by
  refine ⟨rfl, ?_, rfl⟩
  simp [generateSocialScrapeBatch, fallbackData]

/-- C4: the alert-email generator and the scan-report generator never
throw: on API failure `generateAlertEmail` returns the static fallback
subject `Automated Alert: <risk_category>` with the fixed body naming the
article source, and `generateScanReport` returns the fixed completion
string. -/
theorem c4_email_report_fallbacks :
    (∀ (article : ArticleAnalysis) (recipient : String),
       generateAlertEmail none article recipient =
         ("Automated Alert: " ++ article.risk_category.toText,
          "High risk detected in " ++ article.source ++ ". Please review dashboard.")) ∧
    (∀ articles : List ArticleAnalysis, articles ≠ [] →
       generateScanReport none articles = "Scan complete. Review detailed results below.") := by
  constructor
  · intro a r
    rfl
  · intro arts h
    simp [generateScanReport, h]

/-- C4 witness: the fallbacks evaluated at a concrete risky article. -/
theorem c4_email_report_fallbacks_witness :
    generateScanReport none [sampleRiskyAnalysis] =
      "Scan complete. Review detailed results below." ∧
    generateAlertEmail none sampleRiskyAnalysis "analyst@company.com" =
      ("Automated Alert: Hate Speech",
       "High risk detected in Facebook. Please review dashboard.") := by
  refine ⟨c4_email_report_fallbacks.2 [sampleRiskyAnalysis] (by simp), ?_⟩
  have h := c4_email_report_fallbacks.1 sampleRiskyAnalysis "analyst@company.com"
  rw [h]
  rfl

/-- C5 counterexample: the claim that every operation is dominated by the
non-deterministic model output is false — `generateScanReport` on an empty
article list returns the same fixed string whether the model answers,
answers differently, or fails, and the dashboard sentiment bins are
computed without any model call at all. -/
theorem c5_counterexample :
    generateScanReport (some "The scan detected two high-risk items.") [] =
      "No articles were processed." ∧
    generateScanReport none [] = "No articles were processed." ∧
    dashboardSentimentBins [] = [0, 0, 0, 0, 0] :=
  ⟨rfl, rfl, rfl⟩

/-- C5 amended: operations that call the model are dominated by its output,
but deterministic internal algorithms do exist — the scan report on an
empty article list is independent of the model outcome, and the dashboard
sentiment histogram is a pure function of the stored articles whose five
bins always sum to the article count. -/
theorem c5_deterministic_core_exists :
    (∀ o1 o2 : Option String, generateScanReport o1 [] = generateScanReport o2 []) ∧
    (∀ arts : List ArticleAnalysis, (dashboardSentimentBins arts).sum = arts.length) := by
  constructor
  · intro o1 o2
    rfl
  · intro arts
    induction arts with
    | nil => rfl
    | cons a t ih =>
        simp only [dashboardSentimentBins, List.countP_cons, List.sum_cons,
          List.sum_nil] at *
        cases h : a.sentiment_label <;> simp [h] <;> omega

/-- C6: the settings, alerts, data-source and document records are
persisted verbatim: starting from a synced store, after any sequence of
updates each of the four localStorage keys holds exactly the serialization
of the current value (the mount effects establish syncedness), and each
startup initializer recovers the stored value, falling back to its
built-in default when the key is absent. -/
theorem c6_localStorage_persistence :
    (∀ (s : AppState) (st : LocalStorage), storeSynced s st →
       ∀ us : List AppUpdate,
         storeSynced (runUpdates us (s, st)).1 (runUpdates us (s, st)).2) ∧
    (∀ (s : AppState) (st : LocalStorage), storeSynced s (persistAll s st)) ∧
    (∀ (st : LocalStorage) (v : AppSettings),
       st.artemis_settings = some (encodeSettings v) → initSettings st = some v) ∧
    (∀ st : LocalStorage, st.artemis_settings = none →
       initSettings st = some defaultSettings) ∧
    (∀ (st : LocalStorage) (l : List AlertEntry),
       st.artemis_alerts = some (encodeAlerts l) → initAlerts st = some l) ∧
    (∀ st : LocalStorage, st.artemis_alerts = none → initAlerts st = some []) ∧
    (∀ (st : LocalStorage) (l : List DataSource),
       st.artemis_dataSources = some (encodeDataSources l) →
         initDataSources st = some l) ∧
    (∀ st : LocalStorage, st.artemis_dataSources = none →
       initDataSources st = some INITIAL_SOURCES) ∧
    (∀ (st : LocalStorage) (l : List DocumentationFile),
       st.artemis_docs = some (encodeDocs l) → initDocs st = some l) ∧
    (∀ st : LocalStorage, st.artemis_docs = none → initDocs st = some []) := by
  refine ⟨?_, ?_, ?_, ?_, ?_, ?_, ?_, ?_, ?_, ?_⟩
  · intro s st h us
    induction us generalizing s st with
    | nil => exact h
    | cons u us ih => exact ih _ _ (step_preserves_storeSynced u s st h)
  · intro s st
    exact ⟨rfl, rfl, rfl, rfl⟩
  · intro st v h
    simp [initSettings, h, decodeSettings_encodeSettings]
  · intro st h
    simp [initSettings, h]
  · intro st l h
    simp [initAlerts, h, decodeAlerts_encodeAlerts]
  · intro st h
    simp [initAlerts, h]
  · intro st l h
    simp [initDataSources, h, decodeDataSources_encodeDataSources]
  · intro st h
    simp [initDataSources, h]
  · intro st l h
    simp [initDocs, h, decodeDocs_encodeDocs]
  · intro st h
    simp [initDocs, h]

/-- C6 witness: adding a concrete alert after a first launch keeps the
store synced, and an absent key initializes to the built-in default. -/
theorem c6_localStorage_persistence_witness :
    storeSynced
      (runUpdates [AppUpdate.addAlert sampleAlert]
        (initialAppState, persistAll initialAppState emptyStore)).1
      (runUpdates [AppUpdate.addAlert sampleAlert]
        (initialAppState, persistAll initialAppState emptyStore)).2 ∧
    initSettings emptyStore = some defaultSettings := by
  refine ⟨c6_localStorage_persistence.1 initialAppState _ ⟨rfl, rfl, rfl, rfl⟩ _, ?_⟩
  exact c6_localStorage_persistence.2.2.2.1 emptyStore rfl

/-- C7: the Supabase write in `analyzeArticle` is fire-and-forget — the
value delivered to the caller is identical whether the background insert
succeeds or fails, and the insert outcome surfaces only as a console
message. -/
theorem c7_analyze_db_fire_and_forget :
    (∀ (req : AnalysisRequest) (mr : Option ArticleAnalysis) (ar : Option String),
       (analyzeArticle req ⟨mr, true, ar⟩).1 = (analyzeArticle req ⟨mr, false, ar⟩).1) ∧
    (∀ (req : AnalysisRequest) (d : ArticleAnalysis) (ar : Option String) (b : Bool),
       (analyzeArticle req ⟨some d, b, ar⟩).2 =
         [supabaseLog b (attachMetadata req d).article_id]) := by
  constructor
  · intro req mr ar
    cases mr <;> rfl
  · intro req d ar b
    rfl

/-- C8: the configured sensitivity level never influences scanning or
alerting — two settings differing only in the sensitivity field produce
the same scan outcome (same analyzed posts, same recorded alert entries,
same report). -/
theorem c8_sensitivity_noninterference :
    ∀ (email : String) (emailEnabled : Bool) (s1 s2 : String)
      (steps : List ScanStep) (reportOracle : Option String),
      handleScan ⟨email, emailEnabled, s1⟩ steps reportOracle =
        handleScan ⟨email, emailEnabled, s2⟩ steps reportOracle := by
  intro email en s1 s2 steps ro
  rfl

/-- C9: importing a JSON file merges its articles only when the parsed
content is an array whose first element, if one exists, has an
`article_id` field; unparsable JSON, non-array content, and a non-empty
array whose first element lacks `article_id` leave the article list
unchanged with an error notification; an empty array is accepted and
imports zero articles. -/
theorem c9_import_validation (arts : List Json) :
    (∀ content, (handleFileChange content arts).imported = true →
       ∃ l, content = some (Json.arr l) ∧
         ∀ x, l.head? = some x → x.hasField "article_id" = true) ∧
    ((handleFileChange none arts).articles = arts ∧
     (handleFileChange none arts).notifKind = NotifKind.error) ∧
    (∀ j : Json, (∀ l, j ≠ Json.arr l) →
       (handleFileChange (some j) arts).articles = arts ∧
       (handleFileChange (some j) arts).notifKind = NotifKind.error) ∧
    (∀ (x : Json) (xs : List Json), x.hasField "article_id" = false →
       (handleFileChange (some (Json.arr (x :: xs))) arts).articles = arts ∧
       (handleFileChange (some (Json.arr (x :: xs))) arts).notifKind = NotifKind.error) ∧
    handleFileChange (some (Json.arr [])) arts =
      ⟨arts, "Successfully imported 0 articles.", NotifKind.success, true⟩ := by
  refine ⟨?_, ⟨rfl, rfl⟩, ?_, ?_, rfl⟩
  · intro content h
    match content with
    | none => simp [handleFileChange] at h
    | some (Json.arr []) =>
        exact ⟨[], rfl, fun x hx => by simp at hx⟩
    | some (Json.arr (Json.null :: xs)) => simp [handleFileChange] at h
    | some (Json.arr (Json.bool b :: xs)) => simp [handleFileChange, Json.getField?] at h
    | some (Json.arr (Json.num q :: xs)) => simp [handleFileChange, Json.getField?] at h
    | some (Json.arr (Json.str s :: xs)) => simp [handleFileChange, Json.getField?] at h
    | some (Json.arr (Json.arr l :: xs)) => simp [handleFileChange, Json.getField?] at h
    | some (Json.arr (Json.obj fs :: xs)) =>
        refine ⟨Json.obj fs :: xs, rfl, fun x hx => ?_⟩
        simp only [List.head?_cons, Option.some_inj] at hx
        subst hx
        simp only [handleFileChange, Json.getField?] at h
        by_cases hl : (fs.lookup "article_id").isSome
        · simp only [Json.hasField, hl]
        · rw [Option.not_isSome_iff_eq_none] at hl
          simp [hl] at h
    | some Json.null => simp [handleFileChange] at h
    | some (Json.bool b) => simp [handleFileChange] at h
    | some (Json.num q) => simp [handleFileChange] at h
    | some (Json.str s) => simp [handleFileChange] at h
    | some (Json.obj fs) => simp [handleFileChange] at h
  · intro j hj
    match j with
    | Json.null => exact ⟨rfl, rfl⟩
    | Json.bool b => exact ⟨rfl, rfl⟩
    | Json.num q => exact ⟨rfl, rfl⟩
    | Json.str s => exact ⟨rfl, rfl⟩
    | Json.obj fs => exact ⟨rfl, rfl⟩
    | Json.arr l => exact absurd rfl (hj l)
  · intro x xs hx
    match x with
    | Json.null => exact ⟨rfl, rfl⟩
    | Json.bool b => exact ⟨rfl, rfl⟩
    | Json.num q => exact ⟨rfl, rfl⟩
    | Json.str s => exact ⟨rfl, rfl⟩
    | Json.arr l => exact ⟨rfl, rfl⟩
    | Json.obj fs =>
        simp only [Json.hasField] at hx
        have hl : fs.lookup "article_id" = none := by
          cases h2 : fs.lookup "article_id" with
          | none => rfl
          | some v => rw [h2] at hx; simp at hx
        simp [handleFileChange, Json.getField?, hl]

/-- C9 witness: a concrete non-array file is rejected without touching the
article list, and a concrete empty array imports zero articles. -/
theorem c9_import_validation_witness :
    (handleFileChange (some (Json.str "oops")) []).articles = ([] : List Json) ∧
    (handleFileChange (some (Json.str "oops")) []).notifKind = NotifKind.error ∧
    handleFileChange (some (Json.arr [])) [] =
      ⟨[], "Successfully imported 0 articles.", NotifKind.success, true⟩ := by
  have h := c9_import_validation []
  have hna : ∀ l, Json.str "oops" ≠ Json.arr l := fun l hl => Json.noConfusion hl
  exact ⟨(h.2.2.1 (Json.str "oops") hna).1, (h.2.2.1 (Json.str "oops") hna).2, h.2.2.2.2⟩

/-- C10: clearing analysis history also empties the alert log — with a
non-empty article list and a confirmed dialog both lists become empty;
with an empty article list or a declined dialog the state is unchanged. -/
theorem c10_clear_frame (s : AppState) (confirmed : Bool) :
    (s.articles ≠ [] → confirmed = true →
       (handleClear s confirmed).1.articles = [] ∧
       (handleClear s confirmed).1.alerts = []) ∧
    (s.articles = [] ∨ confirmed = false → (handleClear s confirmed).1 = s) := by
  constructor
  · intro h hc
    simp [handleClear, handleClearData, h, hc]
  · rintro (h | h) <;> simp only [handleClear] <;> split <;> simp_all [handleClearData]

/-- C10 witness: a concrete loaded state cleared with confirmation empties
both lists; the same state with a declined dialog is unchanged. -/
theorem c10_clear_frame_witness :
    (handleClear sampleLoadedState true).1.articles = [] ∧
    (handleClear sampleLoadedState true).1.alerts = [] ∧
    (handleClear sampleLoadedState false).1 = sampleLoadedState := by
  have h1 := c10_clear_frame sampleLoadedState true
  have h2 := c10_clear_frame sampleLoadedState false
  exact ⟨(h1.1 (by simp [sampleLoadedState]) rfl).1,
         (h1.1 (by simp [sampleLoadedState]) rfl).2,
         h2.2 (Or.inr rfl)⟩

end Artemis
